import Mathlib

/-!
# Verification of the tool-augmented generation orchestrator

Shallow embedding of the repository backend (course-materials RAG chatbot).

The authoritative source under verification is src/backend/ai_generator.py
(class AIGenerator).  The external Anthropic client is modelled as a list of
responses consumed in order; every issued request is recorded in a trace, and
every tool dispatch performed through the tool manager is recorded in a call
log, so that claims about the number and shape of generation requests and
about tool execution become statements about these observable traces.

The Query Coordinator (rag_system.py) and the Search Tool Adapter
(search_tools.py) are not present under src/ (only their tests are), so the
parts of the data model and operations that live there are modelled from the
specification, each marked by a doc comment starting with
"Modelled from the spec:".
-/

/-- One content block of a model response, as produced by the Anthropic API
(and by the mock factories in src/backend/tests/conftest.py): a text block
carries `text`, a tool-use block carries `type = "tool_use"`, `name`, `id`
and the keyword-argument mapping `input`. -/
structure ContentBlock where
  type : String
  text : String
  name : String
  id : String
  input : List (String × String)
deriving Repr, DecidableEq

/-- A model response: `stop_reason` and an ordered list of content blocks. -/
structure Response where
  stop_reason : String
  content : List ContentBlock
deriving Repr, DecidableEq

/-- One tool-result entry placed in a user turn
(ai_generator.py, `_run_tool_round`). -/
structure ToolResult where
  type : String
  tool_use_id : String
  content : String
deriving Repr, DecidableEq

/-- The content of one conversation message: the initial user turn holds a
plain string, an assistant turn holds the content blocks of a model response,
and a tool-result user turn holds a list of tool results. -/
inductive MsgContent where
  | str (s : String)
  | blocks (bs : List ContentBlock)
  | toolResults (rs : List ToolResult)
deriving Repr, DecidableEq

/-- One conversation message: a role and its content. -/
structure Message where
  role : String
  content : MsgContent
deriving Repr, DecidableEq

/-- A tool descriptor passed in the `tools` field of a request; the
orchestrator treats it opaquely. -/
structure Tool where
  name : String
deriving Repr, DecidableEq

/-- The keyword arguments of one request to `client.messages.create`.
`tools = none` and `tool_choice = none` model the corresponding dict keys
being absent from the request. -/
structure ApiParams where
  model : String
  temperature : Nat
  max_tokens : Nat
  messages : List Message
  system : String
  tools : Option (List Tool)
  tool_choice : Option String
deriving Repr, DecidableEq

/-- One dispatch through the tool manager:
`tool_manager.execute_tool(name, **input)`. -/
structure ToolCall where
  name : String
  args : List (String × String)
deriving Repr, DecidableEq

/-- The tool manager capability: dispatch a tool by name with keyword
arguments and obtain the textual result. -/
def ToolManager : Type := String → List (String × String) → String

/-- ai_generator.py line 8: `MAX_TOOL_ROUNDS = 2`. -/
def MAX_TOOL_ROUNDS : Nat := 2

/-- ai_generator.py lines 11 to 34: the static system prompt. -/
def SYSTEM_PROMPT : String := " You are an AI assistant specialized in course materials and educational content with access to a comprehensive search tool for course information.\n\nSearch Tool Usage:\n- Use **get_course_outline** for outline, structure, or \"what lessons\" queries — returns title, link, and full lesson list; always include the course link in the response\n- Use **search_course_content** for questions about specific course content or educational material\n- **Up to two tool calls per query** — use a second call only when the first result reveals a specific information gap\n- Synthesize results into accurate, fact-based responses\n- If the tool yields no results, state this clearly without offering alternatives\n\nResponse Protocol:\n- **General knowledge questions**: Answer using existing knowledge without searching\n- **Course-specific questions**: Search first, then answer\n- **No meta-commentary**:\n - Provide direct answers only — no reasoning process, search explanations, or question-type analysis\n - Do not mention \"based on the search results\"\n\n\nAll responses must be:\n1. **Brief, Concise and focused** - Get to the point quickly\n2. **Educational** - Maintain instructional value\n3. **Clear** - Use accessible language\n4. **Example-supported** - Include relevant examples when they aid understanding\nProvide only the direct answer to what was asked.\n"

/-- The generator state fixed at construction: ai_generator.py lines 36 to 45.
`base_params` is `{"model": self.model, "temperature": 0, "max_tokens": 800}`,
kept here as the `model` field with temperature and max_tokens inlined where
the dict is spread. -/
structure AIGenerator where
  model : String
deriving Repr, DecidableEq

/-- ai_generator.py lines 67 to 72: the system content is the prompt alone
when `conversation_history` is falsy (None or the empty string), otherwise
the prompt followed by a previous-conversation section. -/
def buildSystemContent (conversation_history : Option String) : String :=
  match conversation_history with
  | none => SYSTEM_PROMPT
  | some h =>
    if h = "" then SYSTEM_PROMPT
    else SYSTEM_PROMPT ++ "\n\nPrevious conversation:\n" ++ h

/-- ai_generator.py lines 81 to 84: the `tools` key is added to the request
only when the `tools` argument is truthy (not None and not the empty list). -/
def toolsField (tools : Option (List Tool)) : Option (List Tool) :=
  match tools with
  | none => none
  | some ts => if ts = [] then none else some ts

/-- ai_generator.py lines 74 to 84: the parameters of the initial request.
`tool_choice = {"type": "auto"}` is set exactly when tools are attached. -/
def initialParams (g : AIGenerator) (query : String) (system_content : String)
    (tools : Option (List Tool)) : ApiParams :=
  { model := g.model, temperature := 0, max_tokens := 800,
    messages := [{ role := "user", content := MsgContent.str query }],
    system := system_content,
    tools := toolsField tools,
    tool_choice := if toolsField tools = none then none else some "auto" }

/-- ai_generator.py lines 96 to 115 (`_run_tool_round`): execute every
tool-use block of the response in order, collect one tool-result entry per
block, and append a single user message holding all of them when at least one
tool was executed.  Returns the new message list and the log of dispatches. -/
def run_tool_round (tm : ToolManager) (response : Response)
    (messages : List Message) : List Message × List ToolCall :=
  let pairs := response.content.filterMap fun content_block =>
    if content_block.type == "tool_use" then
      some (({ type := "tool_result", tool_use_id := content_block.id,
               content := tm content_block.name content_block.input } : ToolResult),
            ({ name := content_block.name, args := content_block.input } : ToolCall))
    else none
  let tool_results := pairs.map Prod.fst
  if tool_results = [] then (messages, pairs.map Prod.snd)
  else (messages ++ [{ role := "user", content := MsgContent.toolResults tool_results }],
        pairs.map Prod.snd)

/-- ai_generator.py lines 137 to 168: the body of the
`for round_num in range(MAX_TOOL_ROUNDS)` loop, recursing on the list of
remaining round numbers, followed by the final synthesis request (lines 162
to 168) once the rounds are exhausted.  `client` is the list of responses the
Anthropic client has yet to return; the result carries the final text, the
requests issued inside the loop, and the tool dispatches performed.  `none`
models a stuck run: the client has no further response, a terminal response
has no content block, or `base_params` lacks the `tools` key (a KeyError at
line 146 in the source). -/
def toolLoop (g : AIGenerator) (base_params : ApiParams) (tm : ToolManager)
    (client : List Response) (messages : List Message) (current : Response) :
    List Nat → Option (String × List ApiParams × List ToolCall)
  | [] =>
    let final_params : ApiParams :=
      { model := g.model, temperature := 0, max_tokens := 800,
        messages := messages, system := base_params.system,
        tools := none, tool_choice := none }
    match client with
    | [] => none
    | r :: _ =>
      (r.content.head?).map fun b => (b.text, [final_params], [])
  | round_num :: rest_rounds =>
    let messages1 := (run_tool_round tm current messages).1
    let calls1 := (run_tool_round tm current messages).2
    if round_num < MAX_TOOL_ROUNDS - 1 then
      match base_params.tools with
      | none => none
      | some ts =>
        let intermediate_params : ApiParams :=
          { model := g.model, temperature := 0, max_tokens := 800,
            messages := messages1, system := base_params.system,
            tools := some ts, tool_choice := some "auto" }
        match client with
        | [] => none
        | r :: rest =>
          if r.stop_reason = "tool_use" then
            (toolLoop g base_params tm rest
                (messages1 ++ [{ role := "assistant", content := MsgContent.blocks r.content }])
                r rest_rounds).map
              fun out => (out.1, intermediate_params :: out.2.1, calls1 ++ out.2.2)
          else
            (r.content.head?).map fun b => (b.text, [intermediate_params], calls1)
    else
      (toolLoop g base_params tm client messages1 current rest_rounds).map
        fun out => (out.1, out.2.1, calls1 ++ out.2.2)

/-- ai_generator.py lines 117 to 168 (`_handle_tool_execution`): copy the
base messages, append the assistant turn holding the initial tool-use
response, and run up to `MAX_TOOL_ROUNDS` tool rounds. -/
def handle_tool_execution (g : AIGenerator) (initial_response : Response)
    (base_params : ApiParams) (tm : ToolManager) (client : List Response) :
    Option (String × List ApiParams × List ToolCall) :=
  toolLoop g base_params tm client
    (base_params.messages ++
      [{ role := "assistant", content := MsgContent.blocks initial_response.content }])
    initial_response (List.range MAX_TOOL_ROUNDS)

/-- ai_generator.py lines 47 to 94 (`generate_response`): build the initial
request, send it, and either hand a tool-use response to
`_handle_tool_execution` (when a tool manager is present) or return the text
of the first content block.  The result is the returned string, the full
ordered trace of issued requests, and the log of tool dispatches. -/
def generate_response (g : AIGenerator) (query : String)
    (conversation_history : Option String) (tools : Option (List Tool))
    (tool_manager : Option ToolManager) (client : List Response) :
    Option (String × List ApiParams × List ToolCall) :=
  let api_params := initialParams g query (buildSystemContent conversation_history) tools
  match client with
  | [] => none
  | response :: rest =>
    match tool_manager with
    | some tm =>
      if response.stop_reason = "tool_use" then
        (handle_tool_execution g response api_params tm rest).map
          fun out => (out.1, api_params :: out.2.1, out.2.2)
      else
        (response.content.head?).map fun b => (b.text, [api_params], [])
    | none =>
      (response.content.head?).map fun b => (b.text, [api_params], [])

/-- A SourceCitation (spec section 3): a human-readable label and an optional
url.  This is the shape of the entries of the Search Tool Adapter buffer
`last_sources`, as exercised by src/backend/tests/test_course_search_tool.py
and src/backend/tests/test_rag_system_query.py. -/
structure Source where
  label : String
  url : Option String
deriving Repr, DecidableEq

/-- A SearchResultSet (spec section 6): either an explicit error carrying a
message, or an ordered list of passages paired with their provenance
(course title and optional lesson number).  The empty result is the empty
list.  Mirrors vector_store.SearchResults as used by the tests in
src/backend/tests. -/
inductive SearchResultSet where
  | error (msg : String)
  | results (items : List (String × String × Option Nat))
deriving Repr, DecidableEq

/-- Modelled from the spec: the passage header rendered by the Search Tool
Adapter (search_tools.py is not under src/).  Spec section 4.2: the header is
the course title, followed by the lesson number when one applies, in square
brackets. -/
def passageHeader (course_title : String) (lesson_number : Option Nat) : String :=
  match lesson_number with
  | some n => course_title ++ " - Lesson " ++ toString n
  | none => course_title

/-- Modelled from the spec: the fixed no-content message of the Search Tool
Adapter (search_tools.py is not under src/).  Spec section 4.2: when zero
passages are returned the message must include the course filter value when
one was supplied. -/
def noContentMessage (course_name : Option String) : String :=
  match course_name with
  | some c => "No relevant content found in course " ++ c
  | none => "No relevant content found"

/-- Modelled from the spec: CourseSearchTool.execute (search_tools.py is not
under src/; only src/backend/tests/test_course_search_tool.py is).  Spec
section 4.2: delegate to the Retrieval Capability with the filters passed
through unchanged; on an error result return the error message verbatim; on
zero passages return the fixed no-content message; otherwise render each
passage under its bracketed header, passages separated by blank lines, and
produce one SourceCitation per passage (label without brackets, url from the
lesson-link lookup).  Returns the textual tool result together with the
citations produced; being a total function, it raises nothing. -/
def execute (search : String → Option String → Option Nat → SearchResultSet)
    (lessonLink : String → Option Nat → Option String)
    (query : String) (course_name : Option String) (lesson_number : Option Nat) :
    String × List Source :=
  match search query course_name lesson_number with
  | SearchResultSet.error msg => (msg, [])
  | SearchResultSet.results items =>
    if items = [] then (noContentMessage course_name, [])
    else
      let rendered := items.map fun item =>
        "[" ++ passageHeader item.2.1 item.2.2 ++ "]\n" ++ item.1
      let sources := items.map fun item =>
        ({ label := passageHeader item.2.1 item.2.2,
           url := lessonLink item.2.1 item.2.2 } : Source)
      (String.intercalate "\n\n" rendered, sources)

/-- The observable outcome of one Query Coordinator query: the result (the
answer paired with the returned citations, or a propagated error message),
the adapter citation buffer after the query, the session ids whose history
was fetched, the conversation history handed to the orchestrator, and the
exchanges recorded into session history. -/
structure QueryOutcome where
  result : Except String (String × List Source)
  bufferAfter : List Source
  fetched : List String
  historyPassed : Option String
  exchanges : List (String × String × String)
deriving Repr

/-- The Generation Orchestrator as the Query Coordinator consumes it: given
the question and the optional rendered history, and acting on the adapter
citation buffer, it returns the updated buffer together with either the final
answer text or a propagated TransportFailure message. -/
def GenCap : Type := String → Option String → List Source → List Source × Except String String

/-- Modelled from the spec: the history the Query Coordinator fetches (spec
section 4.4): the rendered history of the given session when a session id is
present, absent otherwise. -/
def sessionHistory (getHistory : String → Option String) :
    Option String → Option String
  | some s => getHistory s
  | none => none

/-- Modelled from the spec: RAGSystem.query (rag_system.py is not under src/;
only src/backend/tests/test_rag_system_query.py is).  Spec section 4.4: when
`session_id` is absent a new session id is created and no history is fetched,
and the history passed to the orchestrator is absent; when present, the
rendered history is fetched for that id.  The orchestrator is invoked with
the question and history; after it returns, the citation buffer is read,
copied into the returned citations, and then reset to empty — the reset
happens unconditionally, even when the orchestrator propagates a
TransportFailure (spec section 7).  On success the (question, answer)
exchange is appended to the session history. -/
def rag_query (getHistory : String → Option String) (newSessionId : String)
    (gen : GenCap) (buffer : List Source)
    (question : String) (session_id : Option String) : QueryOutcome :=
  let sid := match session_id with
    | some s => s
    | none => newSessionId
  let fetched := match session_id with
    | some s => [s]
    | none => []
  let history := sessionHistory getHistory session_id
  match gen question history buffer with
  | (bufferOut, Except.ok answer) =>
    { result := Except.ok (answer, bufferOut), bufferAfter := [],
      fetched := fetched, historyPassed := history,
      exchanges := [(sid, question, answer)] }
  | (_, Except.error e) =>
    { result := Except.error e, bufferAfter := [],
      fetched := fetched, historyPassed := history,
      exchanges := [] }

/-- The tool-use blocks of a response, in order of appearance. -/
def toolUseBlocks (r : Response) : List ContentBlock :=
  r.content.filter fun b => b.type == "tool_use"

/-- The tool-result entries `_run_tool_round` produces for a response: one per
tool-use block, in order, each carrying the id of its originating block and
the string the tool manager returned for that dispatch. -/
def toolResultsOf (tm : ToolManager) (r : Response) : List ToolResult :=
  (toolUseBlocks r).map fun b =>
    { type := "tool_result", tool_use_id := b.id, content := tm b.name b.input }

/-- The tool dispatches `_run_tool_round` performs for a response. -/
def toolCallsOf (r : Response) : List ToolCall :=
  (toolUseBlocks r).map fun b => { name := b.name, args := b.input }

/-- Concrete generator used by the witnesses. -/
def genW : AIGenerator := { model := "claude-model" }

/-- Concrete text content block used by the witnesses. -/
def textBlockW (t : String) : ContentBlock :=
  { type := "text", text := t, name := "", id := "", input := [] }

/-- Concrete tool-use content block used by the witnesses. -/
def useBlockW (i q : String) : ContentBlock :=
  { type := "tool_use", text := "", name := "search_course_content", id := i,
    input := [("query", q)] }

/-- Concrete plain-text response used by the witnesses. -/
def textRespW (t : String) : Response :=
  { stop_reason := "end_turn", content := [textBlockW t] }

/-- Concrete tool-use response used by the witnesses. -/
def toolRespW (i q : String) : Response :=
  { stop_reason := "tool_use", content := [useBlockW i q] }

/-- Concrete tool manager used by the witnesses. -/
def tmW : ToolManager := fun n _ => "result of " ++ n

/-- The initial request of the canonical two-round witness run. -/
def witP1 : ApiParams :=
  { model := "claude-model", temperature := 0, max_tokens := 800,
    messages := [{ role := "user", content := MsgContent.str "multi-step question" }],
    system := SYSTEM_PROMPT,
    tools := some [{ name := "search_course_content" }],
    tool_choice := some "auto" }

/-- The messages accumulated after the first tool round of the canonical
two-round witness run. -/
def witMsgs3 : List Message :=
  [{ role := "user", content := MsgContent.str "multi-step question" },
   { role := "assistant", content := MsgContent.blocks [useBlockW "tu-r1" "first"] },
   { role := "user", content := MsgContent.toolResults
      [{ type := "tool_result", tool_use_id := "tu-r1",
         content := "result of search_course_content" }] }]

/-- The intermediate tool-offering request of the canonical two-round
witness run. -/
def witP2 : ApiParams :=
  { model := "claude-model", temperature := 0, max_tokens := 800,
    messages := witMsgs3, system := SYSTEM_PROMPT,
    tools := some [{ name := "search_course_content" }],
    tool_choice := some "auto" }

/-- The messages of the final synthesis request of the canonical two-round
witness run: five messages in the fixed pattern. -/
def witMsgs5 : List Message :=
  witMsgs3 ++
  [{ role := "assistant", content := MsgContent.blocks [useBlockW "tu-r2" "second"] },
   { role := "user", content := MsgContent.toolResults
      [{ type := "tool_result", tool_use_id := "tu-r2",
         content := "result of search_course_content" }] }]

/-- The final synthesis request of the canonical two-round witness run. -/
def witP3 : ApiParams :=
  { model := "claude-model", temperature := 0, max_tokens := 800,
    messages := witMsgs5, system := SYSTEM_PROMPT,
    tools := none, tool_choice := none }

/-- The request trace of the canonical two-round witness run. -/
def witTrace : List ApiParams := [witP1, witP2, witP3]

/-- The tool dispatches of the canonical two-round witness run. -/
def witCalls : List ToolCall :=
  [{ name := "search_course_content", args := [("query", "first")] },
   { name := "search_course_content", args := [("query", "second")] }]

/-- A witness response carrying two tool-use blocks in one response. -/
def twoUseRespW : Response :=
  { stop_reason := "tool_use",
    content := [useBlockW "tu-1" "a", useBlockW "tu-2" "b"] }

/-- A witness message list holding one plain user turn. -/
def msgQW : List Message := [{ role := "user", content := MsgContent.str "q" }]

/-- The pair list built inside `_run_tool_round` selects exactly the
tool-use blocks and maps each to its tool-result entry and dispatch log
entry. -/
theorem run_tool_round_pairs (tm : ToolManager) (l : List ContentBlock) :
    (l.filterMap fun content_block =>
      if content_block.type == "tool_use" then
        some (({ type := "tool_result", tool_use_id := content_block.id,
                 content := tm content_block.name content_block.input } : ToolResult),
              ({ name := content_block.name, args := content_block.input } : ToolCall))
      else none) =
    (l.filter fun b => b.type == "tool_use").map fun b =>
      (({ type := "tool_result", tool_use_id := b.id,
          content := tm b.name b.input } : ToolResult),
       ({ name := b.name, args := b.input } : ToolCall)) := by
  induction l with
  | nil => rfl
  | cons a tl ih =>
    by_cases hp : a.type == "tool_use"
    · simp only [List.filterMap_cons, List.filter_cons, hp, if_true, List.map_cons, ih]
    · simp only [List.filterMap_cons, List.filter_cons, hp, if_false, ih]
      simp [Bool.not_eq_true] at hp
      simp [hp]

/-- Closed form of `_run_tool_round`: the tool dispatches are exactly one per
tool-use block, and a single user message holding all tool results is
appended exactly when the response contains at least one tool-use block. -/
theorem run_tool_round_eq (tm : ToolManager) (r : Response) (msgs : List Message) :
    run_tool_round tm r msgs =
      (if toolUseBlocks r = [] then msgs
       else msgs ++ [{ role := "user", content := MsgContent.toolResults (toolResultsOf tm r) }],
       toolCallsOf r) := by
  unfold run_tool_round
  rw [run_tool_round_pairs]
  simp only [List.map_map]
  by_cases hb : toolUseBlocks r = []
  · simp only [toolUseBlocks] at hb
    simp [hb, toolUseBlocks, toolResultsOf, toolCallsOf]
  · simp only [toolUseBlocks] at hb
    simp only [toolUseBlocks, toolResultsOf, toolCallsOf, hb, if_false,
      List.map_eq_nil_iff, List.map_map]
    simp [hb]

/-- Case analysis of the tool loop run at the fixed round budget: a
successful run issues either one intermediate tool-offering request, or one
intermediate tool-offering request followed by the final synthesis request
with the tools and tool_choice keys absent; every issued request reuses the
base model, temperature 0, max_tokens 800 and the base system string, and
the base request must carry a tools key. -/
theorem toolLoop_shape (g : AIGenerator) (bp : ApiParams) (tm : ToolManager)
    (client : List Response) (msgs : List Message) (cur : Response)
    (t : String) (ps : List ApiParams) (cs : List ToolCall)
    (h : toolLoop g bp tm client msgs cur (List.range MAX_TOOL_ROUNDS) = some (t, ps, cs)) :
    ∃ ts, bp.tools = some ts ∧
      ((∃ p : ApiParams, ps = [p] ∧ p.model = g.model ∧ p.temperature = 0 ∧
          p.max_tokens = 800 ∧ p.system = bp.system ∧
          p.tools = some ts ∧ p.tool_choice = some "auto") ∨
       (∃ p q : ApiParams, ps = [p, q] ∧
          p.model = g.model ∧ p.temperature = 0 ∧ p.max_tokens = 800 ∧
          p.system = bp.system ∧ p.tools = some ts ∧ p.tool_choice = some "auto" ∧
          q.model = g.model ∧ q.temperature = 0 ∧ q.max_tokens = 800 ∧
          q.system = bp.system ∧ q.tools = none ∧ q.tool_choice = none)) := by
  have hr : List.range MAX_TOOL_ROUNDS = [0, 1] := rfl
  rw [hr] at h
  simp only [toolLoop, MAX_TOOL_ROUNDS] at h
  norm_num at h
  split at h
  next => exact absurd h (by simp)
  next ts hts =>
    split at h
    next => exact absurd h (by simp)
    next r rest =>
      split at h
      next hsr =>
        split at h
        next => simp at h
        next r3 rest3 =>
          cases hh : r3.content.head? with
          | none =>
            rw [hh] at h
            simp at h
          | some b =>
            rw [hh] at h
            simp only [Option.map_some', Function.comp_apply,
              Option.some.injEq, Prod.mk.injEq] at h
            obtain ⟨ht, hps, hcs⟩ := h
            subst hps
            exact ⟨ts, hts, Or.inr ⟨_, _, rfl, rfl, rfl, rfl, rfl, rfl, rfl,
              rfl, rfl, rfl, rfl, rfl, rfl⟩⟩
      next hsr =>
        cases hh : r.content.head? with
        | none =>
          rw [hh] at h
          simp at h
        | some b =>
          rw [hh] at h
          simp only [Option.map_some', Option.some.injEq, Prod.mk.injEq] at h
          obtain ⟨ht, hps, hcs⟩ := h
          subst hps
          exact ⟨ts, hts, Or.inl ⟨_, rfl, rfl, rfl, rfl, rfl, rfl, rfl⟩⟩

/-- Shape of every successful `generate_response` run: the trace is the
initial request alone, or the initial request followed by one intermediate
tool-offering request, or those two followed by the final synthesis request
without tools; all requests share the base parameters and system string. -/
theorem generate_shape (g : AIGenerator) (query : String) (hist : Option String)
    (tools : Option (List Tool)) (tm : Option ToolManager) (client : List Response)
    (t : String) (trace : List ApiParams) (calls : List ToolCall)
    (h : generate_response g query hist tools tm client = some (t, trace, calls)) :
    (trace = [initialParams g query (buildSystemContent hist) tools] ∧ calls = []) ∨
    (∃ p, trace = [initialParams g query (buildSystemContent hist) tools, p] ∧
       p.model = g.model ∧ p.temperature = 0 ∧ p.max_tokens = 800 ∧
       p.system = buildSystemContent hist ∧ p.tools = toolsField tools ∧
       p.tools ≠ none ∧ p.tool_choice = some "auto") ∨
    (∃ p q, trace = [initialParams g query (buildSystemContent hist) tools, p, q] ∧
       p.model = g.model ∧ p.temperature = 0 ∧ p.max_tokens = 800 ∧
       p.system = buildSystemContent hist ∧ p.tools = toolsField tools ∧
       p.tools ≠ none ∧ p.tool_choice = some "auto" ∧
       q.model = g.model ∧ q.temperature = 0 ∧ q.max_tokens = 800 ∧
       q.system = buildSystemContent hist ∧ q.tools = none ∧ q.tool_choice = none) := by
  simp only [generate_response] at h
  split at h
  next => exact absurd h (by simp)
  next r rest =>
    split at h
    next tm0 =>
      split at h
      next hsr =>
        simp only [Option.map_eq_some'] at h
        obtain ⟨out, hout, heq⟩ := h
        obtain ⟨t0, ps, cs0⟩ := out
        unfold handle_tool_execution at hout
        have hs := toolLoop_shape _ _ _ _ _ _ _ _ _ hout
        simp only [Prod.mk.injEq] at heq
        obtain ⟨ht, htr, hc⟩ := heq
        obtain ⟨ts, hts, hcase⟩ := hs
        rcases hcase with ⟨p, hps, hm, htp, hmx, hsy, hto, hch⟩ |
          ⟨p, q, hps, hm, htp, hmx, hsy, hto, hch, hqm, hqt, hqx, hqs, hqo, hqc⟩
        · refine Or.inr (Or.inl ⟨p, ?_, hm, htp, hmx, hsy, ?_, ?_, hch⟩)
          · rw [← htr, hps]
          · exact hto.trans hts.symm
          · rw [hto]; simp
        · refine Or.inr (Or.inr ⟨p, q, ?_, hm, htp, hmx, hsy, ?_, ?_, hch,
            hqm, hqt, hqx, hqs, hqo, hqc⟩)
          · rw [← htr, hps]
          · exact hto.trans hts.symm
          · rw [hto]; simp
      next hsr =>
        simp only [Option.map_eq_some', Prod.mk.injEq] at h
        obtain ⟨b, hb, ht, htr, hc⟩ := h
        exact Or.inl ⟨htr.symm, hc.symm⟩
    next =>
      simp only [Option.map_eq_some', Prod.mk.injEq] at h
      obtain ⟨b, hb, ht, htr, hc⟩ := h
      exact Or.inl ⟨htr.symm, hc.symm⟩

/-- C1: within one generate_response invocation at most MAX_TOOL_ROUNDS = 2
generation requests offer tools to the model, the total number of generation
requests is at most MAX_TOOL_ROUNDS + 1 = 3, and whenever three requests were
issued (both tool-offering rounds consumed by tool-use responses) the last
request omits the tools and tool_choice fields; a successful run returns
plain text. -/
theorem generation_round_budget (g : AIGenerator) (query : String)
    (hist : Option String) (tools : Option (List Tool)) (tm : Option ToolManager)
    (client : List Response) (t : String) (trace : List ApiParams)
    (calls : List ToolCall)
    (h : generate_response g query hist tools tm client = some (t, trace, calls)) :
    (trace.filter fun p => p.tools.isSome).length ≤ MAX_TOOL_ROUNDS ∧
    trace.length ≤ MAX_TOOL_ROUNDS + 1 ∧
    (trace.length = MAX_TOOL_ROUNDS + 1 →
      ∃ lastp, trace.getLast? = some lastp ∧ lastp.tools = none ∧
        lastp.tool_choice = none) := by
  rcases generate_shape _ _ _ _ _ _ _ _ _ h with ⟨htr, _⟩ |
    ⟨p, htr, _, _, _, _, _, _, _⟩ |
    ⟨p, q, htr, _, _, _, _, _, _, _, _, _, _, _, hqo, hqc⟩
  · subst htr
    refine ⟨le_trans (List.length_filter_le _ _) (by simp [MAX_TOOL_ROUNDS]),
      by simp [MAX_TOOL_ROUNDS], ?_⟩
    intro hlen
    simp [MAX_TOOL_ROUNDS] at hlen
  · subst htr
    refine ⟨le_trans (List.length_filter_le _ _) (by simp [MAX_TOOL_ROUNDS]),
      by simp [MAX_TOOL_ROUNDS], ?_⟩
    intro hlen
    simp [MAX_TOOL_ROUNDS] at hlen
  · subst htr
    refine ⟨?_, by simp [MAX_TOOL_ROUNDS], ?_⟩
    · simp only [List.filter_cons, List.filter_nil, hqo, Option.isSome_none]
      split_ifs <;> simp_all [MAX_TOOL_ROUNDS]
    · intro _
      exact ⟨q, by simp, hqo, hqc⟩

/-- Witness for C1: the canonical two-round run issues three requests, two of
which offer tools, and the last omits tools and tool_choice. -/
theorem generation_round_budget_witness :
    (generate_response genW "multi-step question" none
        (some [{ name := "search_course_content" }]) (some tmW)
        [toolRespW "tu-r1" "first", toolRespW "tu-r2" "second", textRespW "final"] =
      some ("final", witTrace, witCalls)) ∧
    ((witTrace.filter fun p => p.tools.isSome).length ≤ MAX_TOOL_ROUNDS ∧
     witTrace.length ≤ MAX_TOOL_ROUNDS + 1 ∧
     (witTrace.length = MAX_TOOL_ROUNDS + 1 →
       ∃ lastp, witTrace.getLast? = some lastp ∧ lastp.tools = none ∧
         lastp.tool_choice = none)) :=
  ⟨by rfl, generation_round_budget genW "multi-step question" none
    (some [{ name := "search_course_content" }]) (some tmW)
    [toolRespW "tu-r1" "first", toolRespW "tu-r2" "second", textRespW "final"]
    "final" witTrace witCalls (by rfl)⟩

/-- C9: every generation request issued within a single generate_response
invocation uses the same model, temperature 0, max_tokens 800, and the exact
system string of the initial request (the one built from the conversation
history). -/
theorem request_params_uniform (g : AIGenerator) (query : String)
    (hist : Option String) (tools : Option (List Tool)) (tm : Option ToolManager)
    (client : List Response) (t : String) (trace : List ApiParams)
    (calls : List ToolCall)
    (h : generate_response g query hist tools tm client = some (t, trace, calls)) :
    ∀ p ∈ trace, p.model = g.model ∧ p.temperature = 0 ∧ p.max_tokens = 800 ∧
      p.system = buildSystemContent hist := by
  rcases generate_shape _ _ _ _ _ _ _ _ _ h with ⟨htr, _⟩ |
    ⟨p, htr, hm, ht, hx, hs, _, _, _⟩ |
    ⟨p, q, htr, hm, ht, hx, hs, _, _, _, hqm, hqt, hqx, hqs, _, _⟩
  · subst htr
    intro p hp
    simp only [List.mem_singleton] at hp
    subst hp
    exact ⟨rfl, rfl, rfl, rfl⟩
  · subst htr
    intro p0 hp0
    simp only [List.mem_cons, List.mem_singleton, List.not_mem_nil, or_false] at hp0
    rcases hp0 with hp0 | hp0
    · subst hp0
      exact ⟨rfl, rfl, rfl, rfl⟩
    · subst hp0
      exact ⟨hm, ht, hx, hs⟩
  · subst htr
    intro p0 hp0
    simp only [List.mem_cons, List.not_mem_nil, or_false] at hp0
    rcases hp0 with hp0 | hp0 | hp0
    · subst hp0
      exact ⟨rfl, rfl, rfl, rfl⟩
    · subst hp0
      exact ⟨hm, ht, hx, hs⟩
    · subst hp0
      exact ⟨hqm, hqt, hqx, hqs⟩

/-- Witness for C9 at the canonical two-round run. -/
theorem request_params_uniform_witness :
    (generate_response genW "multi-step question" none
        (some [{ name := "search_course_content" }]) (some tmW)
        [toolRespW "tu-r1" "first", toolRespW "tu-r2" "second", textRespW "final"] =
      some ("final", witTrace, witCalls)) ∧
    (∀ p ∈ witTrace, p.model = genW.model ∧ p.temperature = 0 ∧
      p.max_tokens = 800 ∧ p.system = buildSystemContent none) :=
  ⟨by rfl, request_params_uniform genW "multi-step question" none
    (some [{ name := "search_course_content" }]) (some tmW)
    [toolRespW "tu-r1" "first", toolRespW "tu-r2" "second", textRespW "final"]
    "final" witTrace witCalls (by rfl)⟩

/-- C2: when tools are offered and the first two responses are tool-use
responses containing tool-use blocks, the orchestrator issues exactly three
generation requests; the third omits the tools and tool_choice fields and
its message list has length 5 in the fixed order user, assistant(tool-use),
user(tool-result), assistant(tool-use), user(tool-result); the run returns
the text of the first block of the third response and dispatches the tool
calls of both rounds in order. -/
theorem two_round_chain_trace (g : AIGenerator) (query : String)
    (hist : Option String) (ts : List Tool) (tm0 : ToolManager)
    (r1 r2 r3 : Response) (rest : List Response) (b : ContentBlock)
    (hne : ts ≠ [])
    (h1 : r1.stop_reason = "tool_use") (h2 : r2.stop_reason = "tool_use")
    (hb1 : toolUseBlocks r1 ≠ []) (hb2 : toolUseBlocks r2 ≠ [])
    (hb : r3.content.head? = some b) :
    generate_response g query hist (some ts) (some tm0) (r1 :: r2 :: r3 :: rest) =
      some (b.text,
        [initialParams g query (buildSystemContent hist) (some ts),
         { model := g.model, temperature := 0, max_tokens := 800,
           messages := [{ role := "user", content := MsgContent.str query },
             { role := "assistant", content := MsgContent.blocks r1.content },
             { role := "user", content := MsgContent.toolResults (toolResultsOf tm0 r1) }],
           system := buildSystemContent hist, tools := some ts,
           tool_choice := some "auto" },
         { model := g.model, temperature := 0, max_tokens := 800,
           messages := [{ role := "user", content := MsgContent.str query },
             { role := "assistant", content := MsgContent.blocks r1.content },
             { role := "user", content := MsgContent.toolResults (toolResultsOf tm0 r1) },
             { role := "assistant", content := MsgContent.blocks r2.content },
             { role := "user", content := MsgContent.toolResults (toolResultsOf tm0 r2) }],
           system := buildSystemContent hist, tools := none, tool_choice := none }],
        toolCallsOf r1 ++ toolCallsOf r2) := by
  have htf : toolsField (some ts) = some ts := by simp [toolsField, hne]
  simp only [generate_response, initialParams, htf, h1, if_true]
  simp only [handle_tool_execution, toolLoop, MAX_TOOL_ROUNDS]
  norm_num
  simp only [run_tool_round_eq, hb1, hb2, if_false, h2, if_true, hb,
    Option.map_some']
  simp [toolResultsOf, toolCallsOf]
  exact ⟨_, _, _, ⟨rfl, rfl, rfl⟩, rfl, rfl, rfl⟩

/-- C3: a response containing n >= 1 tool-use blocks makes `_run_tool_round`
append exactly one user message whose content is a list of n tool results,
one per tool-use block in the order the blocks appear, each carrying the id
of its originating block and the result string dispatched for that block. -/
theorem tool_results_batched (tm : ToolManager) (r : Response)
    (messages : List Message) (hb : toolUseBlocks r ≠ []) :
    ∃ rs : List ToolResult,
      (run_tool_round tm r messages).1 =
        messages ++ [{ role := "user", content := MsgContent.toolResults rs }] ∧
      rs.length = (toolUseBlocks r).length ∧
      ∀ i (hi : i < (toolUseBlocks r).length),
        rs[i]? = some ({ type := "tool_result",
                         tool_use_id := ((toolUseBlocks r).get ⟨i, hi⟩).id,
                         content := tm ((toolUseBlocks r).get ⟨i, hi⟩).name
                           ((toolUseBlocks r).get ⟨i, hi⟩).input } : ToolResult) := by
  refine ⟨toolResultsOf tm r, ?_, by simp [toolResultsOf], ?_⟩
  · rw [run_tool_round_eq]
    simp [hb]
  · intro i hi
    simp [toolResultsOf, List.getElem?_map, List.getElem?_eq_getElem, hi]

/-- C4: with the tools argument absent and a first response that is plain
text, exactly one generation request is issued (its parameters carrying no
tools key), the returned string is the text of the first content block of
that response unchanged, and no tool is ever dispatched. -/
theorem no_tools_direct_response (g : AIGenerator) (query : String)
    (hist : Option String) (tm : Option ToolManager) (r : Response)
    (rest : List Response) (b : ContentBlock)
    (hsr : r.stop_reason = "end_turn") (hb : r.content.head? = some b) :
    generate_response g query hist none tm (r :: rest) =
      some (b.text, [initialParams g query (buildSystemContent hist) none], []) := by
  have hne : r.stop_reason ≠ "tool_use" := by rw [hsr]; decide
  simp only [generate_response]
  cases tm with
  | none => simp [hb]
  | some tm0 => simp [hne, hb]

/-- C10: when the first response has stop_reason tool_use but the tool
manager is absent, no tool is executed and generate_response returns the
text attribute of the first content block of that tool-use response, after
exactly one generation request and with no error signalled. -/
theorem tool_use_without_manager (g : AIGenerator) (query : String)
    (hist : Option String) (tools : Option (List Tool)) (r : Response)
    (rest : List Response) (b : ContentBlock)
    (_hsr : r.stop_reason = "tool_use") (hb : r.content.head? = some b) :
    generate_response g query hist tools none (r :: rest) =
      some (b.text, [initialParams g query (buildSystemContent hist) tools], []) := by
  simp only [generate_response]
  simp [hb]

/-- C7 (spec-modelled): when retrieval yields an explicit error result, the
Search Tool Adapter returns exactly that error message, unmodified, as the
textual tool result; execute is a total function, so no exception crosses
the tool boundary. -/
theorem search_error_verbatim
    (search : String → Option String → Option Nat → SearchResultSet)
    (lessonLink : String → Option Nat → Option String)
    (query : String) (course_name : Option String) (lesson_number : Option Nat)
    (msg : String)
    (herr : search query course_name lesson_number = SearchResultSet.error msg) :
    (execute search lessonLink query course_name lesson_number).1 = msg := by
  unfold execute
  rw [herr]

/-- C5 counterexample: a citation sitting in the adapter buffer before a
query begins is returned in that query's citations list (exactly the
behaviour asserted by test_sources_from_search_tool_returned), because the
coordinator reads the buffer only after the orchestrator returns; the buffer
is not reset at the start of the query. -/
theorem stale_source_returned :
    (rag_query (fun _ => none) "new-session"
        (fun _ _ buffer => (buffer, Except.ok "mocked answer"))
        [{ label := "Course A - Lesson 1", url := some "http://a.com" }]
        "question" none).result =
      Except.ok ("mocked answer",
        [{ label := "Course A - Lesson 1", url := some "http://a.com" }]) := rfl

/-- C5 amended: the citation buffer is reset to empty at the end of every
query, after the coordinator copies its contents into the returned
citations list; hence no buffered citation survives a query to leak into a
later one, although citations already buffered when a query begins do
surface in that same query's returned list. -/
theorem sources_reset_after_query (getH : String → Option String)
    (sid : String) (gen : GenCap) (buffer : List Source) (question : String)
    (sess : Option String) :
    (rag_query getH sid gen buffer question sess).bufferAfter = [] := by
  rcases hres : gen question (sessionHistory getH sess) buffer with ⟨buf1, res⟩
  simp only [rag_query]
  rw [hres]
  cases res <;> rfl

/-- C6 (spec-modelled): when the orchestrator propagates a TransportFailure,
the coordinator propagates exactly that error, with no retry, no partial
answer and no recorded exchange, and the citation buffer is nonetheless
reset to empty so the next query observes no stale citations. -/
theorem transport_failure_propagates (getH : String → Option String)
    (sid : String) (gen : GenCap) (buffer buf1 : List Source)
    (question : String) (sess : Option String) (e : String)
    (hgen : gen question (sessionHistory getH sess) buffer =
      (buf1, Except.error e)) :
    (rag_query getH sid gen buffer question sess).result = Except.error e ∧
    (rag_query getH sid gen buffer question sess).bufferAfter = [] ∧
    (rag_query getH sid gen buffer question sess).exchanges = [] := by
  simp only [rag_query]
  rw [hgen]
  exact ⟨rfl, rfl, rfl⟩

/-- C8: a query without a session id fetches no session history and passes
an absent (None, not empty-string) conversation history to the orchestrator;
and within a generation run invoked with absent history, the system content
of every request is the bare system prompt, with no previous-conversation
section appended. -/
theorem no_session_no_history (getH : String → Option String) (sid : String)
    (gen : GenCap) (buffer : List Source) (question : String)
    (g : AIGenerator) (query : String) (tools : Option (List Tool))
    (tm : Option ToolManager) (client : List Response) (t : String)
    (trace : List ApiParams) (calls : List ToolCall)
    (h : generate_response g query none tools tm client = some (t, trace, calls)) :
    (rag_query getH sid gen buffer question none).fetched = [] ∧
    (rag_query getH sid gen buffer question none).historyPassed = none ∧
    buildSystemContent none = SYSTEM_PROMPT ∧
    (∀ p ∈ trace, p.system = SYSTEM_PROMPT) := by
  refine ⟨?_, ?_, rfl, ?_⟩
  · rcases hres : gen question (sessionHistory getH none) buffer with ⟨buf1, res⟩
    simp only [rag_query]
    rw [hres]
    cases res <;> rfl
  · rcases hres : gen question (sessionHistory getH none) buffer with ⟨buf1, res⟩
    simp only [rag_query]
    rw [hres]
    cases res <;> rfl
  · have hs : buildSystemContent none = SYSTEM_PROMPT := rfl
    rcases generate_shape _ _ _ _ _ _ _ _ _ h with ⟨htr, _⟩ |
      ⟨p, htr, _, _, _, hsy, _, _, _⟩ |
      ⟨p, q, htr, _, _, _, hsy, _, _, _, _, _, _, hqs, _, _⟩
    · subst htr
      intro p0 hp0
      simp only [List.mem_singleton] at hp0
      subst hp0
      exact hs
    · subst htr
      intro p0 hp0
      simp only [List.mem_cons, List.not_mem_nil, or_false] at hp0
      rcases hp0 with hp0 | hp0
      · subst hp0
        exact hs
      · subst hp0
        exact hsy.trans hs
    · subst htr
      intro p0 hp0
      simp only [List.mem_cons, List.not_mem_nil, or_false] at hp0
      rcases hp0 with hp0 | hp0 | hp0
      · subst hp0
        exact hs
      · subst hp0
        exact hsy.trans hs
      · subst hp0
        exact hqs.trans hs

/-- Witness for C2: the canonical two-round run instantiated concretely. -/
theorem two_round_chain_trace_witness :
    (([({ name := "search_course_content" } : Tool)] : List Tool) ≠ []) ∧
    (toolRespW "tu-r1" "first").stop_reason = "tool_use" ∧
    (toolRespW "tu-r2" "second").stop_reason = "tool_use" ∧
    toolUseBlocks (toolRespW "tu-r1" "first") ≠ [] ∧
    toolUseBlocks (toolRespW "tu-r2" "second") ≠ [] ∧
    (textRespW "final").content.head? = some (textBlockW "final") ∧
    generate_response genW "multi-step question" none
        (some [{ name := "search_course_content" }]) (some tmW)
        (toolRespW "tu-r1" "first" :: toolRespW "tu-r2" "second" ::
          textRespW "final" :: []) =
      some ((textBlockW "final").text,
        [initialParams genW "multi-step question" (buildSystemContent none)
           (some [{ name := "search_course_content" }]),
         { model := genW.model, temperature := 0, max_tokens := 800,
           messages := [{ role := "user", content := MsgContent.str "multi-step question" },
                        { role := "assistant",
                          content := MsgContent.blocks (toolRespW "tu-r1" "first").content },
                        { role := "user",
                          content := MsgContent.toolResults
                            (toolResultsOf tmW (toolRespW "tu-r1" "first")) }],
           system := buildSystemContent none,
           tools := some [{ name := "search_course_content" }],
           tool_choice := some "auto" },
         { model := genW.model, temperature := 0, max_tokens := 800,
           messages := [{ role := "user", content := MsgContent.str "multi-step question" },
                        { role := "assistant",
                          content := MsgContent.blocks (toolRespW "tu-r1" "first").content },
                        { role := "user",
                          content := MsgContent.toolResults
                            (toolResultsOf tmW (toolRespW "tu-r1" "first")) },
                        { role := "assistant",
                          content := MsgContent.blocks (toolRespW "tu-r2" "second").content },
                        { role := "user",
                          content := MsgContent.toolResults
                            (toolResultsOf tmW (toolRespW "tu-r2" "second")) }],
           system := buildSystemContent none, tools := none, tool_choice := none }],
        toolCallsOf (toolRespW "tu-r1" "first") ++
          toolCallsOf (toolRespW "tu-r2" "second")) :=
  ⟨by decide, rfl, rfl, by decide, by decide, rfl,
   two_round_chain_trace genW "multi-step question" none
     [{ name := "search_course_content" }] tmW
     (toolRespW "tu-r1" "first") (toolRespW "tu-r2" "second") (textRespW "final")
     [] (textBlockW "final") (by decide) rfl rfl (by decide) (by decide) rfl⟩

/-- Witness for C3: a response carrying two tool-use blocks. -/
theorem tool_results_batched_witness :
    (toolUseBlocks twoUseRespW ≠ []) ∧
    (∃ rs : List ToolResult,
      (run_tool_round tmW twoUseRespW msgQW).1 =
        msgQW ++ [{ role := "user", content := MsgContent.toolResults rs }] ∧
      rs.length = (toolUseBlocks twoUseRespW).length ∧
      ∀ i (hi : i < (toolUseBlocks twoUseRespW).length),
        rs[i]? = some ({ type := "tool_result",
                         tool_use_id := ((toolUseBlocks twoUseRespW).get ⟨i, hi⟩).id,
                         content := tmW ((toolUseBlocks twoUseRespW).get ⟨i, hi⟩).name
                           ((toolUseBlocks twoUseRespW).get ⟨i, hi⟩).input } : ToolResult)) :=
  ⟨by decide, tool_results_batched tmW twoUseRespW msgQW (by decide)⟩

/-- Witness for C4: a direct text response with tools absent. -/
theorem no_tools_direct_response_witness :
    (textRespW "Direct answer").stop_reason = "end_turn" ∧
    (textRespW "Direct answer").content.head? = some (textBlockW "Direct answer") ∧
    generate_response genW "What is Python?" none none none
        [textRespW "Direct answer"] =
      some ((textBlockW "Direct answer").text,
        [initialParams genW "What is Python?" (buildSystemContent none) none], []) :=
  ⟨rfl, rfl,
   no_tools_direct_response genW "What is Python?" none none
     (textRespW "Direct answer") [] (textBlockW "Direct answer") rfl rfl⟩

/-- Witness for C6: a failing orchestrator over a non-empty buffer. -/
theorem transport_failure_propagates_witness :
    ((fun _ _ b => (b, Except.error "API failed") : GenCap) "question"
        (sessionHistory (fun _ => none) none)
        [{ label := "Old", url := none }] =
      ([{ label := "Old", url := none }], Except.error "API failed")) ∧
    ((rag_query (fun _ => none) "sid-1"
        (fun _ _ b => (b, Except.error "API failed")) [{ label := "Old", url := none }]
        "question" none).result = Except.error "API failed" ∧
     (rag_query (fun _ => none) "sid-1"
        (fun _ _ b => (b, Except.error "API failed")) [{ label := "Old", url := none }]
        "question" none).bufferAfter = [] ∧
     (rag_query (fun _ => none) "sid-1"
        (fun _ _ b => (b, Except.error "API failed")) [{ label := "Old", url := none }]
        "question" none).exchanges = []) :=
  ⟨rfl,
   transport_failure_propagates (fun _ => none) "sid-1"
     (fun _ _ b => (b, Except.error "API failed")) [{ label := "Old", url := none }]
     [{ label := "Old", url := none }] "question" none "API failed" rfl⟩

/-- Witness for C7: a retrieval capability that always fails. -/
theorem search_error_verbatim_witness :
    ((fun _ _ _ => SearchResultSet.error
        "Search error: n_results cannot be greater than the number of elements in the index" :
      String → Option String → Option Nat → SearchResultSet) "something" none none =
      SearchResultSet.error
        "Search error: n_results cannot be greater than the number of elements in the index") ∧
    (execute
      (fun _ _ _ => SearchResultSet.error
        "Search error: n_results cannot be greater than the number of elements in the index")
      (fun _ _ => none) "something" none none).1 =
      "Search error: n_results cannot be greater than the number of elements in the index" :=
  ⟨rfl,
   search_error_verbatim
     (fun _ _ _ => SearchResultSet.error
       "Search error: n_results cannot be greater than the number of elements in the index")
     (fun _ _ => none) "something" none none
     "Search error: n_results cannot be greater than the number of elements in the index" rfl⟩

/-- Witness for C8: a standalone query with no session id, alongside a
direct generation run with absent history. -/
theorem no_session_no_history_witness :
    (generate_response genW "standalone question" none none none
        [textRespW "mocked answer"] =
      some ((textBlockW "mocked answer").text,
        [initialParams genW "standalone question" (buildSystemContent none) none], [])) ∧
    ((rag_query (fun _ => some "Previous: User asked about X") "auto-created-session"
        (fun _ _ b => (b, Except.ok "mocked answer")) [] "standalone question" none).fetched = [] ∧
     (rag_query (fun _ => some "Previous: User asked about X") "auto-created-session"
        (fun _ _ b => (b, Except.ok "mocked answer")) [] "standalone question" none).historyPassed = none ∧
     buildSystemContent none = SYSTEM_PROMPT ∧
     (∀ p ∈ [initialParams genW "standalone question" (buildSystemContent none) none],
        p.system = SYSTEM_PROMPT)) :=
  ⟨rfl,
   no_session_no_history (fun _ => some "Previous: User asked about X")
     "auto-created-session" (fun _ _ b => (b, Except.ok "mocked answer")) []
     "standalone question" genW "standalone question" none none
     [textRespW "mocked answer"] "mocked answer"
     [initialParams genW "standalone question" (buildSystemContent none) none] [] rfl⟩

/-- Witness for C10: a tool-use response with the tool manager absent. -/
theorem tool_use_without_manager_witness :
    (toolRespW "tu-1" "python").stop_reason = "tool_use" ∧
    (toolRespW "tu-1" "python").content.head? = some (useBlockW "tu-1" "python") ∧
    generate_response genW "python question" none
        (some [{ name := "search_course_content" }]) none [toolRespW "tu-1" "python"] =
      some ((useBlockW "tu-1" "python").text,
        [initialParams genW "python question" (buildSystemContent none)
          (some [{ name := "search_course_content" }])], []) :=
  ⟨rfl, rfl,
   tool_use_without_manager genW "python question" none
     (some [{ name := "search_course_content" }]) (toolRespW "tu-1" "python") []
     (useBlockW "tu-1" "python") rfl rfl⟩
